import Mathlib

/-!
Verification development for the AMBE-3000R serial protocol codec
(`ambeserver.py`).

Shallow embedding conventions:
  - the serial byte stream is a `List Nat` of byte values; `port.read n`
    returns up to `n` bytes, modelled as `(s.take n, s.drop n)` (a short
    read models timeout/EOF, exactly as `pyserial` returns short data);
  - `construct` builders that can raise (out-of-range field values,
    oversized lengths, wrong array lengths) return `Option (List Nat)`;
  - parsers return `Option`/`Except PyError`; `construct`'s `Optional`
    combinator (try, rewind on any ConstructError) is `parseOpt`;
  - Python exceptions that can escape a modelled code path are explicit
    `PyError` values.
-/

/-- Python exception classes that can escape the modelled code paths:
`struct.error` (from `struct.unpack` on short data), `AttributeError`
(calling a method that does not exist / attribute access on `False`),
`construct.ConstError`, `construct.StreamError`, `construct.MappingError`,
`construct.FormatFieldError` (building an out-of-range or oversized
field). -/
inductive PyError where
  | structError
  | attributeError
  | constError
  | streamError
  | mappingError
  | formatFieldError
deriving DecidableEq

/-- Result of `AmbeServer.get_response`: either the `(None, None)` return,
a `(frame_type, data)` pair (`frame_type` is the raw bytes read for the
type tag, possibly empty on a short read), or a raised exception. -/
inductive GetResponseResult where
  | none_none
  | frame (frame_type : List Nat) (data : List Nat)
  | raised (e : PyError)
deriving DecidableEq

/-- `AmbeServer.get_response` (ambeserver.py lines 480-509), as a function
of the incoming byte stream; the second component is the unread remainder
of the stream.  Mirrors the source exactly: read 1 byte (empty read or a
byte other than `0x61` returns `(None, None)`); `struct.unpack` of the
2-byte big-endian length raises `struct.error` on short data; read 1 byte
of frame type; if the length field is zero the source calls
`self.read_short()`, a method that does not exist anywhere in the class,
so Python raises `AttributeError`; finally read `d_len` payload bytes
(possibly short, unchecked). -/
def get_response (s : List Nat) : GetResponseResult × List Nat :=
  match s with
  | [] => (.none_none, [])
  | b :: rest =>
    if b = 0x61 then
      match rest with
      | hi :: lo :: rest2 =>
        let d_len := hi * 256 + lo
        let ftBytes := rest2.take 1
        let rest3 := rest2.drop 1
        if d_len = 0 then (.raised .attributeError, rest3)
        else (.frame ftBytes (rest3.take d_len), rest3.drop d_len)
      | _ => (.raised .structError, [])
    else (.none_none, rest)

/-- Claim C2: for every incoming frame whose 2-byte big-endian length field
equals 0, the spec says frame decoding reads 2 further bytes as the true
big-endian payload length and then that many payload bytes.  The code does
not: the `d_len == 0` branch of `get_response` calls `self.read_short()`,
a method that exists nowhere in `AmbeServer` (or the module), so the
exchange dies with `AttributeError`.  Evaluated here on the concrete frame
`61 00 00 01 AA BB` (LEN = 0x0000, type CHANNEL): decoding raises instead
of reading the two extended-length bytes. -/
theorem extended_length_frame_raises :
    get_response [0x61, 0x00, 0x00, 0x01, 0xAA, 0xBB] =
      (.raised .attributeError, [0xAA, 0xBB]) := rfl

/-- Claim C8: a stream whose first byte is not the start marker `0x61`
makes `get_response` return the absent result `(None, None)` having
consumed exactly one byte: the remainder of the stream is untouched. -/
theorem bad_start_byte_consumes_one (b : Nat) (rest : List Nat)
    (h : b ≠ 0x61) : get_response (b :: rest) = (.none_none, rest) := by
  simp [get_response, h]

/-- Witness for `bad_start_byte_consumes_one` at the spec's own scenario:
the stream begins with `0x00` instead of `0x61`. -/
theorem bad_start_byte_consumes_one_witness :
    get_response [0x00, 0x61, 0x02, 0x03] = (.none_none, [0x61, 0x02, 0x03]) :=
  bad_start_byte_consumes_one 0x00 [0x61, 0x02, 0x03] (by decide)

/-- Claim C7, counterexample: the spec says a frame whose type tag byte is
outside `{CONTROL = 0x00, CHANNEL = 0x01, SPEECH = 0x02}` fails to decode
with `UnknownPacketType`.  The code never validates the type tag: on the
concrete frame `61 00 01 7F AA` (type tag `0x7F`) `get_response` succeeds,
returning the unknown tag and the payload. -/
theorem unknown_type_tag_decodes :
    get_response [0x61, 0x00, 0x01, 0x7F, 0xAA] =
      (.frame [0x7F] [0xAA], []) := rfl

/-- The `PacketTypes` enumeration (ambeserver.py lines 32-36). -/
def PacketTypes : List (String × Nat) :=
  [("CONTROL", 0x00), ("CHANNEL", 0x01), ("SPEECH", 0x02)]

/-- `PacketType.build`: a `construct.Enum` over `Byte` maps the label
string to its byte value (an unknown label raises `MappingError`,
modelled as `none`). -/
def PacketType_build (s : String) : Option Nat :=
  PacketTypes.lookup s

/-- `GeneralPacket.build` (ambeserver.py lines 84-89, invoked at lines
454-461 with `LENGTH = len(fields)`): `Const 0x61`, big-endian `Int16ub`
length, type byte, then `Byte[LENGTH]` fields.  `construct` raises if the
length does not fit 16 bits, or any written byte is out of range, hence
the guard. -/
def GeneralPacket_build (pkt_type : Nat) (fields : List Nat) : Option (List Nat) :=
  if fields.length < 0x10000 ∧ pkt_type < 256 ∧ ∀ b ∈ fields, b < 256 then
    some (0x61 :: fields.length / 256 :: fields.length % 256 :: pkt_type :: fields)
  else none

/-- What `AmbeServer.send_packet` hands back to its caller: Python `None`,
Python `False`, a parsed response object, or a raised exception. -/
inductive SendResult (α : Type) where
  | py_none
  | py_false
  | parsed (a : α)
  | raised (e : PyError)
deriving DecidableEq

/-- `AmbeServer.send_packet` (ambeserver.py lines 450-478) as a function of
the response byte stream: build and write the command frame, read one
response via `get_response` (a failed build raises before anything is
read), compare the returned frame-type bytes against
`PacketType.build(resp_type)` (Python `None` or short/other bytes compare
unequal and the method returns `False`), then `resp.parse(data)` with only
`construct.ConstError` caught (caught: return `None`); any other parse
error propagates.  Returns `(written command bytes, result)`. -/
def send_packet {α : Type} (parse : List Nat → Except PyError α)
    (pkt_type : Nat) (fields : List Nat) (resp_type : String)
    (s : List Nat) : Option (List Nat) × SendResult α :=
  match GeneralPacket_build pkt_type fields with
  | none => (none, SendResult.raised .formatFieldError)
  | some cmd =>
  let res :=
    match (get_response s).1 with
    | .raised e => SendResult.raised e
    | .none_none =>
      match PacketType_build resp_type with
      | none => SendResult.raised .mappingError
      | some _ => SendResult.py_false
    | .frame ft data =>
      match PacketType_build resp_type with
      | none => SendResult.raised .mappingError
      | some v =>
        if ft = [v] then
          match parse data with
          | .ok a => SendResult.parsed a
          | .error .constError => SendResult.py_none
          | .error e => SendResult.raised e
        else SendResult.py_false
  (some cmd, res)

/-- A parsed `InitResp` (ambeserver.py lines 139-142): `FIELD_ID` is the
constant `PKT_INIT = 0x0B`, followed by one `RESULT` byte. -/
structure InitRespVal where
  RESULT : Nat
deriving DecidableEq

/-- `InitResp.parse`: `Const PKT_INIT(0x0B)` (mismatch raises `ConstError`,
missing bytes raise `StreamError`), then one `RESULT` byte; trailing bytes
are ignored, as `construct`'s `parse` does. -/
def InitResp_parse : List Nat → Except PyError InitRespVal
  | [] => .error .streamError
  | b :: rest =>
    if b = 0x0B then
      match rest with
      | r :: _ => .ok ⟨r⟩
      | [] => .error .streamError
    else .error .constError

/-- Claim C1, counterexample.  The spec says that on a response-type
mismatch, or on a framing or structural payload decode failure,
`send_packet` returns an absent result (Python `None`) and no exception
propagates.  Both halves fail on the code: on the frame `61 00 01 02 AA`
(type SPEECH when CONTROL was expected) `send_packet` returns `False`, a
present boolean, not `None`; and on the frame `61 00 02 00 0B` (type
CONTROL, declared length 2 but only 1 payload byte delivered) the payload
decode fails with `construct.StreamError`, which is not caught by the
`except c.ConstError` handler and escapes the exchange. -/
theorem send_packet_mismatch_counterexample :
    (send_packet InitResp_parse 0x00 [] "CONTROL" [0x61, 0x00, 0x01, 0x02, 0xAA]).2
        = SendResult.py_false
    ∧ (send_packet InitResp_parse 0x00 [] "CONTROL" [0x61, 0x00, 0x02, 0x00, 0x0B]).2
        = SendResult.raised .streamError := by
  exact ⟨rfl, rfl⟩

/-- Claim C1, amended: `send_packet` returns Python `False` (a present
negative value, not an absent result) when framing fails (`get_response`
returned `(None, None)`) or the response frame type differs from the
expected type; it returns the absent result `None` exactly when the frame
type matches and the payload decode fails with a constant mismatch
(`ConstError`); payload decode failures other than `ConstError` raise. -/
theorem send_packet_error_paths {α : Type} (parse : List Nat → Except PyError α)
    (pkt_type : Nat) (fields : List Nat) (resp_type : String) (rtv : Nat)
    (cmdb : List Nat) (hcmd : GeneralPacket_build pkt_type fields = some cmdb)
    (hrt : PacketType_build resp_type = some rtv) (s : List Nat) :
    ((get_response s).1 = .none_none →
      (send_packet parse pkt_type fields resp_type s).2 = SendResult.py_false)
    ∧ (∀ ft data, (get_response s).1 = .frame ft data → ft ≠ [rtv] →
      (send_packet parse pkt_type fields resp_type s).2 = SendResult.py_false)
    ∧ (∀ data, (get_response s).1 = .frame [rtv] data →
        parse data = .error .constError →
      (send_packet parse pkt_type fields resp_type s).2 = SendResult.py_none) := by
  refine ⟨fun h => ?_, fun ft data h hne => ?_, fun data h hp => ?_⟩
  · simp [send_packet, hcmd, h, hrt]
  · simp [send_packet, hcmd, h, hrt, hne]
  · simp [send_packet, hcmd, h, hrt, hp]

/-- Witness for `send_packet_error_paths`: on the concrete stream
`61 00 01 02 BB` the decoded frame has type SPEECH (`0x02`) while CONTROL
(`0x00`) was expected, and `send_packet` returns `False`. -/
theorem send_packet_error_paths_witness :
    (send_packet InitResp_parse 0x00 [] "CONTROL" [0x61, 0x00, 0x01, 0x02, 0xBB]).2
      = SendResult.py_false :=
  (send_packet_error_paths InitResp_parse 0x00 [] "CONTROL" 0x00
    [0x61, 0x00, 0x00, 0x00] rfl rfl
    [0x61, 0x00, 0x01, 0x02, 0xBB]).2.1 [0x02] [0xBB] rfl (by decide)

/-- Claim C7, amended: frame decoding performs no type-tag validation.
For any type byte `ftb` whatsoever (including values outside
`{CONTROL, CHANNEL, SPEECH}`), a well-formed frame decodes successfully
and `get_response` returns the tag as-is; an unexpected tag is rejected
only later, by `send_packet`'s equality comparison against the expected
response type, which returns `False`. -/
theorem get_response_accepts_any_type (ftb hi lo : Nat) (payload : List Nat)
    (hlen : hi * 256 + lo = payload.length) (hnz : payload.length ≠ 0) :
    get_response (0x61 :: hi :: lo :: ftb :: payload) = (.frame [ftb] payload, [])
    ∧ (ftb ≠ 0x00 →
      (send_packet InitResp_parse 0x00 [] "CONTROL"
        (0x61 :: hi :: lo :: ftb :: payload)).2 = SendResult.py_false) := by
  have hg : get_response (0x61 :: hi :: lo :: ftb :: payload) = (.frame [ftb] payload, []) := by
    simp [get_response, hlen, hnz, List.take_length, List.drop_length]
  refine ⟨hg, fun hftb => ?_⟩
  simp [send_packet, hg, PacketType_build, PacketTypes, hftb,
    GeneralPacket_build]

/-- Witness for `get_response_accepts_any_type` at type byte `0x55` with a
one-byte payload. -/
theorem get_response_accepts_any_type_witness :
    get_response [0x61, 0x00, 0x01, 0x55, 0xCC] = (.frame [0x55] [0xCC], [])
    ∧ (send_packet InitResp_parse 0x00 [] "CONTROL"
        [0x61, 0x00, 0x01, 0x55, 0xCC]).2 = SendResult.py_false := by
  have h := get_response_accepts_any_type 0x55 0x00 0x01 [0xCC] (by decide) (by decide)
  exact ⟨h.1, h.2 (by decide)⟩

/-- `InitCmd.build` (ambeserver.py lines 247-254): `Const PKT_INIT(0x0B)`
then a `FlagsEnum(Byte)` with `echo_canceller = 0x4`, `decoder_init = 0x2`,
`encoder_init = 0x1`; building a flags byte ORs the values of the set
flags. -/
def InitCmd_build (echo_canceller decoder_init encoder_init : Bool) : List Nat :=
  [0x0B, (if echo_canceller then 0x4 else 0) |||
    (if decoder_init then 0x2 else 0) ||| (if encoder_init then 0x1 else 0)]

/-- `AmbeServer.init` (ambeserver.py lines 512-539) as a function of the
response byte stream: build the `InitCmd`, call `send_packet` expecting a
`"CONTROL"` response parsed by `InitResp`; the source then runs
`if resp == None: return False` and otherwise `return resp.RESULT == 0x00`.
In Python `False == None` is `False`, so a `False` from `send_packet` falls
through to `resp.RESULT`, which raises `AttributeError` on a `bool`.
Returns `(written command bytes, outcome)`. -/
def AmbeServer_init (echo_canceller encoder_init decoder_init : Bool)
    (s : List Nat) : Option (List Nat) × Except PyError Bool :=
  let fields := InitCmd_build echo_canceller decoder_init encoder_init
  let (cmd, res) := send_packet InitResp_parse 0x00 fields "CONTROL" s
  match res with
  | .raised e => (cmd, .error e)
  | .py_none => (cmd, .ok false)
  | .py_false => (cmd, .error .attributeError)
  | .parsed r => (cmd, .ok (r.RESULT == 0x00))

/-- Claim C6: `init` sends the `INIT` control command `61 00 02 00 0B F`
where `F` ORs the `echo_canceller = 0x4` / `decoder_init = 0x2` /
`encoder_init = 0x1` flag bits, and on a well-formed CONTROL response with
field id `PKT_INIT` and result byte `R` it returns the boolean `R == 0x00`:
true exactly when `R = 0`, and a plain `false` (not a decode error) for any
non-zero `R`. -/
theorem init_result (ec enc dec : Bool) (R : Nat) :
    AmbeServer_init ec enc dec [0x61, 0x00, 0x02, 0x00, 0x0B, R] =
      (some [0x61, 0x00, 0x02, 0x00, 0x0B,
        (if ec then 0x4 else 0) ||| (if dec then 0x2 else 0) |||
          (if enc then 0x1 else 0)],
       .ok (R == 0x00)) := by
  cases ec <;> cases enc <;> cases dec <;> rfl

/-- Claim C3: for every packet type in `{CONTROL = 0x00, CHANNEL = 0x01,
SPEECH = 0x02}` and every byte payload of length at most `0xFFFF`,
`GeneralPacket.build` produces exactly the start marker `0x61`, the 2-byte
big-endian payload length (`hi * 256 + lo = length` with both bytes in
range), the 1-byte type tag, and the payload bytes. -/
theorem general_packet_encoding (t : Nat) (fields : List Nat)
    (ht : t = 0x00 ∨ t = 0x01 ∨ t = 0x02) (hlen : fields.length ≤ 0xFFFF)
    (hb : ∀ b ∈ fields, b < 256) :
    ∃ hi lo, hi < 256 ∧ lo < 256 ∧ hi * 256 + lo = fields.length ∧
      GeneralPacket_build t fields = some (0x61 :: hi :: lo :: t :: fields) := by
  have ht256 : t < 256 := by rcases ht with h | h | h <;> simp [h]
  refine ⟨fields.length / 256, fields.length % 256, ?_, ?_, ?_, ?_⟩
  · exact Nat.lt_succ_of_le (Nat.div_le_div_right hlen)
  · exact Nat.mod_lt _ (by decide)
  · exact Nat.div_add_mod' fields.length 256
  · exact if_pos ⟨Nat.lt_succ_of_le hlen, ht256, hb⟩

/-- Witness for `general_packet_encoding`: a CHANNEL packet with a
three-byte payload encodes as `61 00 03 01 0A 0B 0C`. -/
theorem general_packet_encoding_witness :
    ∃ hi lo, hi < 256 ∧ lo < 256 ∧ hi * 256 + lo = 3 ∧
      GeneralPacket_build 0x01 [0x0A, 0x0B, 0x0C] =
        some (0x61 :: hi :: lo :: 0x01 :: [0x0A, 0x0B, 0x0C]) :=
  general_packet_encoding 0x01 [0x0A, 0x0B, 0x0C] (by decide) (by decide)
    (by decide)

/-- A parsed `ChanD` sub-field (ambeserver.py lines 349-353; `ChanD4`,
lines 355-359, has the same shape with tag `0x17`): `NUM_BITS` logical
bits stored as `ceil(NUM_BITS / 8)` bytes. -/
structure ChanDVal where
  NUM_BITS : Nat
  DATA : List Nat
deriving DecidableEq

/-- A parsed `SpeechPCM` sub-field (ambeserver.py lines 286-290):
`NUM_SAMPLES` big-endian 16-bit samples. -/
structure SpeechPCMVal where
  NUM_SAMPLES : Nat
  DATA : List Nat
deriving DecidableEq

/-- A parsed `ChannelPacket` (ambeserver.py lines 366-373): the `0x40`
container tag then five `Optional` sub-fields. -/
structure ChannelPacketVal where
  CHAND : Option ChanDVal
  CHAND4 : Option ChanDVal
  CMODE : Option Nat
  TONE : Option (Nat × Nat)
  NUM_SAMPLES : Option Nat
deriving DecidableEq

/-- A parsed `SpeechPCMPacket` (ambeserver.py lines 309-314): the `0x40`
container tag then three `Optional` sub-fields. -/
structure SpeechPCMPacketVal where
  SPEECHD : Option SpeechPCMVal
  CMODE : Option Nat
  TONE : Option (Nat × Nat)
deriving DecidableEq

/-- `ChanD.build`: `Const 0x01`, the `NUM_BITS` byte, then a byte array
whose length `construct` checks against `ceil(NUM_BITS / 8)`; out-of-range
values or a wrong array length raise, hence the guard. -/
def ChanD_build (v : ChanDVal) : Option (List Nat) :=
  if v.NUM_BITS < 256 ∧ v.DATA.length = (v.NUM_BITS + 7) / 8 ∧
      ∀ b ∈ v.DATA, b < 256 then
    some (0x01 :: v.NUM_BITS :: v.DATA)
  else none

/-- `ChanD4.build`: as `ChanD.build` with tag `0x17`. -/
def ChanD4_build (v : ChanDVal) : Option (List Nat) :=
  if v.NUM_BITS < 256 ∧ v.DATA.length = (v.NUM_BITS + 7) / 8 ∧
      ∀ b ∈ v.DATA, b < 256 then
    some (0x17 :: v.NUM_BITS :: v.DATA)
  else none

/-- `ChannelCMODE.build` (ambeserver.py lines 329-336): `Const 0x02` then
the big-endian 16-bit flags word. -/
def ChannelCMODE_build (w : Nat) : Option (List Nat) :=
  if w < 0x10000 then some [0x02, w / 256, w % 256] else none

/-- `ChannelTONE.build` (ambeserver.py lines 343-347): `Const 0x08`, tone
index byte, amplitude byte. -/
def ChannelTONE_build (t : Nat × Nat) : Option (List Nat) :=
  if t.1 < 256 ∧ t.2 < 256 then some [0x08, t.1, t.2] else none

/-- A single `Byte` build (the untagged trailing `NUM_SAMPLES`). -/
def byte_build (n : Nat) : Option (List Nat) :=
  if n < 256 then some [n] else none

/-- Build of `Array(n, Int16ub)`: each sample as two big-endian bytes. -/
def int16s_build : List Nat → List Nat
  | [] => []
  | v :: vs => v / 256 :: v % 256 :: int16s_build vs

/-- `SpeechPCM.build`: `Const 0x00`, the `NUM_SAMPLES` byte, then
`NUM_SAMPLES` big-endian 16-bit samples. -/
def SpeechPCM_build (v : SpeechPCMVal) : Option (List Nat) :=
  if v.NUM_SAMPLES < 256 ∧ v.DATA.length = v.NUM_SAMPLES ∧
      ∀ x ∈ v.DATA, x < 0x10000 then
    some (0x00 :: v.NUM_SAMPLES :: int16s_build v.DATA)
  else none

/-- `SpeechCMODE.build` (ambeserver.py lines 292-295): `Const 0x02` then
the big-endian 16-bit `ECMODE_IN` flags word. -/
def SpeechCMODE_build (w : Nat) : Option (List Nat) :=
  if w < 0x10000 then some [0x02, w / 256, w % 256] else none

/-- `SpeechTONE.build` (ambeserver.py lines 302-306): `Const 0x08`, tone
index byte, amplitude byte. -/
def SpeechTONE_build (t : Nat × Nat) : Option (List Nat) :=
  if t.1 < 256 ∧ t.2 < 256 then some [0x08, t.1, t.2] else none

/-- Build of one `Optional` sub-field: `None` contributes no bytes. -/
def optBuild {α : Type} (b : α → Option (List Nat)) : Option α → Option (List Nat)
  | none => some []
  | some v => b v

/-- `ChannelPacket.build`: the `0x40` container tag followed by the
concatenation of the present sub-fields in struct order. -/
def ChannelPacket_build (v : ChannelPacketVal) : Option (List Nat) :=
  (optBuild ChanD_build v.CHAND).bind (fun e1 =>
  (optBuild ChanD4_build v.CHAND4).bind (fun e2 =>
  (optBuild ChannelCMODE_build v.CMODE).bind (fun e3 =>
  (optBuild ChannelTONE_build v.TONE).bind (fun e4 =>
  (optBuild byte_build v.NUM_SAMPLES).map (fun e5 =>
  0x40 :: (e1 ++ (e2 ++ (e3 ++ (e4 ++ e5)))))))))

/-- `SpeechPCMPacket.build`: the `0x40` container tag followed by the
concatenation of the present sub-fields in struct order. -/
def SpeechPCMPacket_build (v : SpeechPCMPacketVal) : Option (List Nat) :=
  (optBuild SpeechPCM_build v.SPEECHD).bind (fun e1 =>
  (optBuild SpeechCMODE_build v.CMODE).bind (fun e2 =>
  (optBuild SpeechTONE_build v.TONE).map (fun e3 =>
  0x40 :: (e1 ++ (e2 ++ e3)))))

/-- `ChanD.parse`: tag `0x01`, `NUM_BITS` byte `n`, then exactly
`ceil(n / 8)` data bytes; any shortfall or tag mismatch is a
ConstructError, which `Optional` turns into a rewind (`none`). -/
def ChanD_parse : List Nat → Option (ChanDVal × List Nat)
  | b :: n :: rest =>
    if b = 0x01 then
      if (n + 7) / 8 ≤ rest.length then
        some (⟨n, rest.take ((n + 7) / 8)⟩, rest.drop ((n + 7) / 8))
      else none
    else none
  | _ => none

/-- `ChanD4.parse`: as `ChanD.parse` with tag `0x17`. -/
def ChanD4_parse : List Nat → Option (ChanDVal × List Nat)
  | b :: n :: rest =>
    if b = 0x17 then
      if (n + 7) / 8 ≤ rest.length then
        some (⟨n, rest.take ((n + 7) / 8)⟩, rest.drop ((n + 7) / 8))
      else none
    else none
  | _ => none

/-- `ChannelCMODE.parse`: tag `0x02` then a big-endian 16-bit word. -/
def ChannelCMODE_parse : List Nat → Option (Nat × List Nat)
  | b :: h :: l :: rest => if b = 0x02 then some (h * 256 + l, rest) else none
  | _ => none

/-- `ChannelTONE.parse`: tag `0x08`, index byte, amplitude byte. -/
def ChannelTONE_parse : List Nat → Option ((Nat × Nat) × List Nat)
  | b :: ti :: ta :: rest => if b = 0x08 then some ((ti, ta), rest) else none
  | _ => none

/-- Parse of a single optional `Byte`. -/
def byte_parse : List Nat → Option (Nat × List Nat)
  | b :: rest => some (b, rest)
  | [] => none

/-- Parse of `Array(n, Int16ub)`. -/
def int16s_parse : Nat → List Nat → Option (List Nat × List Nat)
  | 0, s => some ([], s)
  | n + 1, h :: l :: rest =>
    match int16s_parse n rest with
    | some (vs, r) => some ((h * 256 + l) :: vs, r)
    | none => none
  | _ + 1, [] => none
  | _ + 1, [_] => none

/-- `SpeechPCM.parse`: tag `0x00`, `NUM_SAMPLES` byte `n`, then `n`
big-endian 16-bit samples. -/
def SpeechPCM_parse : List Nat → Option (SpeechPCMVal × List Nat)
  | b :: n :: rest =>
    if b = 0x00 then
      match int16s_parse n rest with
      | some (vs, r) => some (⟨n, vs⟩, r)
      | none => none
    else none
  | _ => none

/-- `SpeechCMODE.parse`: tag `0x02` then a big-endian 16-bit word. -/
def SpeechCMODE_parse : List Nat → Option (Nat × List Nat)
  | b :: h :: l :: rest => if b = 0x02 then some (h * 256 + l, rest) else none
  | _ => none

/-- `SpeechTONE.parse`: tag `0x08`, index byte, amplitude byte. -/
def SpeechTONE_parse : List Nat → Option ((Nat × Nat) × List Nat)
  | b :: ti :: ta :: rest => if b = 0x08 then some ((ti, ta), rest) else none
  | _ => none

/-- `construct.Optional`: try the sub-parser, rewinding the stream and
yielding `None` on any ConstructError. -/
def parseOpt {α : Type} (p : List Nat → Option (α × List Nat))
    (s : List Nat) : Option α × List Nat :=
  match p s with
  | some (v, r) => (some v, r)
  | none => (none, s)

/-- `ChannelPacket.parse`: `Const 0x40` (ConstError on mismatch,
StreamError on empty input), then the five `Optional` sub-fields in
struct order; trailing bytes are ignored, as `construct`'s `parse`
does. -/
def ChannelPacket_parse (s : List Nat) : Except PyError ChannelPacketVal :=
  match s with
  | [] => .error .streamError
  | b :: rest =>
    if b = 0x40 then
      let r1 := parseOpt ChanD_parse rest
      let r2 := parseOpt ChanD4_parse r1.2
      let r3 := parseOpt ChannelCMODE_parse r2.2
      let r4 := parseOpt ChannelTONE_parse r3.2
      let r5 := parseOpt byte_parse r4.2
      .ok ⟨r1.1, r2.1, r3.1, r4.1, r5.1⟩
    else .error .constError

/-- `SpeechPCMPacket.parse`: `Const 0x40`, then the three `Optional`
sub-fields in struct order. -/
def SpeechPCMPacket_parse (s : List Nat) : Except PyError SpeechPCMPacketVal :=
  match s with
  | [] => .error .streamError
  | b :: rest =>
    if b = 0x40 then
      let r1 := parseOpt SpeechPCM_parse rest
      let r2 := parseOpt SpeechCMODE_parse r1.2
      let r3 := parseOpt SpeechTONE_parse r2.2
      .ok ⟨r1.1, r2.1, r3.1⟩
    else .error .constError

/-- A sub-field parser headed by a non-matching tag byte rewinds. -/
lemma ChanD_parse_skip {b : Nat} (rest : List Nat) (h : b ≠ 0x01) :
    ChanD_parse (b :: rest) = none := by
  cases rest <;> simp [ChanD_parse, h]

/-- As `ChanD_parse_skip` for the `0x17`-tagged variant. -/
lemma ChanD4_parse_skip {b : Nat} (rest : List Nat) (h : b ≠ 0x17) :
    ChanD4_parse (b :: rest) = none := by
  cases rest <;> simp [ChanD4_parse, h]

/-- As `ChanD_parse_skip` for the channel mode flags sub-field. -/
lemma ChannelCMODE_parse_skip {b : Nat} (rest : List Nat) (h : b ≠ 0x02) :
    ChannelCMODE_parse (b :: rest) = none := by
  rcases rest with _ | ⟨x, _ | ⟨y, t⟩⟩ <;> simp [ChannelCMODE_parse, h]

/-- As `ChanD_parse_skip` for the channel tone sub-field. -/
lemma ChannelTONE_parse_skip {b : Nat} (rest : List Nat) (h : b ≠ 0x08) :
    ChannelTONE_parse (b :: rest) = none := by
  rcases rest with _ | ⟨x, _ | ⟨y, t⟩⟩ <;> simp [ChannelTONE_parse, h]

/-- As `ChanD_parse_skip` for the PCM speech-data sub-field. -/
lemma SpeechPCM_parse_skip {b : Nat} (rest : List Nat) (h : b ≠ 0x00) :
    SpeechPCM_parse (b :: rest) = none := by
  cases rest <;> simp [SpeechPCM_parse, h]

/-- As `ChanD_parse_skip` for the speech mode flags sub-field. -/
lemma SpeechCMODE_parse_skip {b : Nat} (rest : List Nat) (h : b ≠ 0x02) :
    SpeechCMODE_parse (b :: rest) = none := by
  rcases rest with _ | ⟨x, _ | ⟨y, t⟩⟩ <;> simp [SpeechCMODE_parse, h]

/-- As `ChanD_parse_skip` for the speech tone sub-field. -/
lemma SpeechTONE_parse_skip {b : Nat} (rest : List Nat) (h : b ≠ 0x08) :
    SpeechTONE_parse (b :: rest) = none := by
  rcases rest with _ | ⟨x, _ | ⟨y, t⟩⟩ <;> simp [SpeechTONE_parse, h]

/-- Inversion of a successful `ChannelCMODE.build`. -/
lemma ChannelCMODE_build_inv {w : Nat} {e : List Nat}
    (h : ChannelCMODE_build w = some e) : e = [0x02, w / 256, w % 256] := by
  unfold ChannelCMODE_build at h
  split at h
  · exact (Option.some.inj h).symm
  · exact Option.noConfusion h

/-- Inversion of a successful `ChannelTONE.build`. -/
lemma ChannelTONE_build_inv {t : Nat × Nat} {e : List Nat}
    (h : ChannelTONE_build t = some e) : e = [0x08, t.1, t.2] := by
  unfold ChannelTONE_build at h
  split at h
  · exact (Option.some.inj h).symm
  · exact Option.noConfusion h

/-- Inversion of a successful `SpeechCMODE.build`. -/
lemma SpeechCMODE_build_inv {w : Nat} {e : List Nat}
    (h : SpeechCMODE_build w = some e) : e = [0x02, w / 256, w % 256] := by
  unfold SpeechCMODE_build at h
  split at h
  · exact (Option.some.inj h).symm
  · exact Option.noConfusion h

/-- Inversion of a successful `SpeechTONE.build`. -/
lemma SpeechTONE_build_inv {t : Nat × Nat} {e : List Nat}
    (h : SpeechTONE_build t = some e) : e = [0x08, t.1, t.2] := by
  unfold SpeechTONE_build at h
  split at h
  · exact (Option.some.inj h).symm
  · exact Option.noConfusion h

/-- Parsing bytes built by `ChanD.build` consumes exactly those bytes and
recovers the value, for any continuation of the stream. -/
lemma ChanD_parse_build {v : ChanDVal} {e : List Nat}
    (h : ChanD_build v = some e) (r : List Nat) :
    ChanD_parse (e ++ r) = some (v, r) := by
  unfold ChanD_build at h
  split at h
  · rename_i hg
    obtain ⟨-, hlen, -⟩ := hg
    obtain rfl := (Option.some.inj h).symm
    show ChanD_parse (0x01 :: v.NUM_BITS :: (v.DATA ++ r)) = some (v, r)
    have hle : (v.NUM_BITS + 7) / 8 ≤ (v.DATA ++ r).length := by
      rw [List.length_append, ← hlen]
      exact Nat.le_add_right _ _
    simp [ChanD_parse, hle, List.take_left' hlen, List.drop_left' hlen]
    omega
  · exact Option.noConfusion h

/-- Parsing `Array(n, Int16ub)` bytes built from `vs`, with `n` the length
of `vs`, recovers `vs` and leaves the continuation. -/
lemma int16s_parse_build {vs : List Nat} {n : Nat} (hn : n = vs.length)
    (r : List Nat) : int16s_parse n (int16s_build vs ++ r) = some (vs, r) := by
  subst hn
  induction vs with
  | nil => rfl
  | cons v vs ih =>
    show int16s_parse (vs.length + 1)
      (v / 256 :: v % 256 :: (int16s_build vs ++ r)) = some (v :: vs, r)
    simp [int16s_parse, ih, Nat.div_add_mod']

/-- Parsing bytes built by `SpeechPCM.build` consumes exactly those bytes
and recovers the value, for any continuation of the stream. -/
lemma SpeechPCM_parse_build {v : SpeechPCMVal} {e : List Nat}
    (h : SpeechPCM_build v = some e) (r : List Nat) :
    SpeechPCM_parse (e ++ r) = some (v, r) := by
  unfold SpeechPCM_build at h
  split at h
  · rename_i hg
    obtain ⟨-, hlen, -⟩ := hg
    obtain rfl := (Option.some.inj h).symm
    show SpeechPCM_parse (0x00 :: v.NUM_SAMPLES :: (int16s_build v.DATA ++ r))
      = some (v, r)
    simp [SpeechPCM_parse, int16s_parse_build hlen.symm r]
  · exact Option.noConfusion h

/-- Rewriting `construct.Optional` when the sub-parser succeeds. -/
lemma parseOpt_some {α : Type} {p : List Nat → Option (α × List Nat)}
    {s : List Nat} {v : α} {r : List Nat} (h : p s = some (v, r)) :
    parseOpt p s = (some v, r) := by
  simp [parseOpt, h]

/-- Rewriting `construct.Optional` when the sub-parser rewinds. -/
lemma parseOpt_skip {α : Type} {p : List Nat → Option (α × List Nat)}
    {s : List Nat} (h : p s = none) : parseOpt p s = (none, s) := by
  simp [parseOpt, h]

/-- Inversion of one `Optional` sub-field build: either the field was
absent and contributed no bytes, or it was present and built them. -/
lemma optBuild_inv {α : Type} {b : α → Option (List Nat)} {o : Option α}
    {e : List Nat} (h : optBuild b o = some e) :
    (o = none ∧ e = []) ∨ (∃ v, o = some v ∧ b v = some e) := by
  cases o with
  | none => exact Or.inl ⟨rfl, (Option.some.inj h).symm⟩
  | some v => exact Or.inr ⟨v, rfl, h⟩

/-- Encode-then-decode identity for `ChannelPacket` payloads carrying any
subset of the `{CHAND, CMODE, TONE}` sub-fields (and no others). -/
lemma ChannelPacket_roundtrip (chand : Option ChanDVal) (cmode : Option Nat)
    (tone : Option (Nat × Nat)) (bytes : List Nat)
    (h : ChannelPacket_build ⟨chand, none, cmode, tone, none⟩ = some bytes) :
    ChannelPacket_parse bytes = .ok ⟨chand, none, cmode, tone, none⟩ := by
  simp only [ChannelPacket_build, Option.bind_eq_some, Option.map_eq_some'] at h
  obtain ⟨e1, h1, e2, h2, e3, h3, e4, h4, e5, h5, hb⟩ := h
  simp only [optBuild, Option.some.injEq] at h2 h5
  subst h2
  subst h5
  subst hb
  rcases optBuild_inv h1 with ⟨rfl, rfl⟩ | ⟨v, rfl, hb1⟩ <;>
    rcases optBuild_inv h3 with ⟨rfl, rfl⟩ | ⟨w, rfl, hb3⟩ <;>
      rcases optBuild_inv h4 with ⟨rfl, rfl⟩ | ⟨t, rfl, hb4⟩
  · rfl
  · obtain rfl := ChannelTONE_build_inv hb4
    simp [ChannelPacket_parse, parseOpt, ChanD_parse, ChanD4_parse,
      ChannelCMODE_parse, ChannelTONE_parse, byte_parse]
  · obtain rfl := ChannelCMODE_build_inv hb3
    simp [ChannelPacket_parse, parseOpt, ChanD_parse, ChanD4_parse,
      ChannelCMODE_parse, ChannelTONE_parse, byte_parse, Nat.div_add_mod']
  · obtain rfl := ChannelCMODE_build_inv hb3
    obtain rfl := ChannelTONE_build_inv hb4
    simp [ChannelPacket_parse, parseOpt, ChanD_parse, ChanD4_parse,
      ChannelCMODE_parse, ChannelTONE_parse, byte_parse, Nat.div_add_mod']
  · rw [ChannelPacket_parse, if_pos rfl, parseOpt_some (ChanD_parse_build hb1 _)]
    simp [parseOpt, ChanD4_parse, ChannelCMODE_parse, ChannelTONE_parse,
      byte_parse]
  · obtain rfl := ChannelTONE_build_inv hb4
    rw [ChannelPacket_parse, if_pos rfl, parseOpt_some (ChanD_parse_build hb1 _)]
    simp [parseOpt, ChanD4_parse, ChannelCMODE_parse, ChannelTONE_parse,
      byte_parse]
  · obtain rfl := ChannelCMODE_build_inv hb3
    rw [ChannelPacket_parse, if_pos rfl, parseOpt_some (ChanD_parse_build hb1 _)]
    simp [parseOpt, ChanD4_parse, ChannelCMODE_parse, ChannelTONE_parse,
      byte_parse, Nat.div_add_mod']
  · obtain rfl := ChannelCMODE_build_inv hb3
    obtain rfl := ChannelTONE_build_inv hb4
    rw [ChannelPacket_parse, if_pos rfl, parseOpt_some (ChanD_parse_build hb1 _)]
    simp [parseOpt, ChanD4_parse, ChannelCMODE_parse, ChannelTONE_parse,
      byte_parse, Nat.div_add_mod']

/-- Encode-then-decode identity for `SpeechPCMPacket` payloads carrying
any subset of the `{SPEECHD, CMODE, TONE}` sub-fields. -/
lemma SpeechPCMPacket_roundtrip (spd : Option SpeechPCMVal) (cmode : Option Nat)
    (tone : Option (Nat × Nat)) (bytes : List Nat)
    (h : SpeechPCMPacket_build ⟨spd, cmode, tone⟩ = some bytes) :
    SpeechPCMPacket_parse bytes = .ok ⟨spd, cmode, tone⟩ := by
  simp only [SpeechPCMPacket_build, Option.bind_eq_some, Option.map_eq_some'] at h
  obtain ⟨e1, h1, e2, h2, e3, h3, hb⟩ := h
  subst hb
  rcases optBuild_inv h1 with ⟨rfl, rfl⟩ | ⟨v, rfl, hb1⟩ <;>
    rcases optBuild_inv h2 with ⟨rfl, rfl⟩ | ⟨w, rfl, hb2⟩ <;>
      rcases optBuild_inv h3 with ⟨rfl, rfl⟩ | ⟨t, rfl, hb3⟩
  · rfl
  · obtain rfl := SpeechTONE_build_inv hb3
    simp [SpeechPCMPacket_parse, parseOpt, SpeechPCM_parse, SpeechCMODE_parse,
      SpeechTONE_parse]
  · obtain rfl := SpeechCMODE_build_inv hb2
    simp [SpeechPCMPacket_parse, parseOpt, SpeechPCM_parse, SpeechCMODE_parse,
      SpeechTONE_parse, Nat.div_add_mod']
  · obtain rfl := SpeechCMODE_build_inv hb2
    obtain rfl := SpeechTONE_build_inv hb3
    simp [SpeechPCMPacket_parse, parseOpt, SpeechPCM_parse, SpeechCMODE_parse,
      SpeechTONE_parse, Nat.div_add_mod']
  · rw [SpeechPCMPacket_parse, if_pos rfl,
      parseOpt_some (SpeechPCM_parse_build hb1 _)]
    simp [parseOpt, SpeechCMODE_parse, SpeechTONE_parse]
  · obtain rfl := SpeechTONE_build_inv hb3
    rw [SpeechPCMPacket_parse, if_pos rfl,
      parseOpt_some (SpeechPCM_parse_build hb1 _)]
    simp [parseOpt, SpeechCMODE_parse, SpeechTONE_parse]
  · obtain rfl := SpeechCMODE_build_inv hb2
    rw [SpeechPCMPacket_parse, if_pos rfl,
      parseOpt_some (SpeechPCM_parse_build hb1 _)]
    simp [parseOpt, SpeechCMODE_parse, SpeechTONE_parse, Nat.div_add_mod']
  · obtain rfl := SpeechCMODE_build_inv hb2
    obtain rfl := SpeechTONE_build_inv hb3
    rw [SpeechPCMPacket_parse, if_pos rfl,
      parseOpt_some (SpeechPCM_parse_build hb1 _)]
    simp [parseOpt, SpeechCMODE_parse, SpeechTONE_parse, Nat.div_add_mod']

/-- Claim C4: for every subset `S` of the optional sub-fields
`{channel-data, mode, tone}`, encoding a channel or speech payload
containing only the sub-fields in `S` and then decoding that payload
yields exactly the tags in `S` present and every other sub-field
(including `CHAND4` and the untagged trailing `NUM_SAMPLES` of channel
packets) absent. -/
theorem subfield_independence :
    (∀ (chand : Option ChanDVal) (cmode : Option Nat)
      (tone : Option (Nat × Nat)) (bytes : List Nat),
      ChannelPacket_build ⟨chand, none, cmode, tone, none⟩ = some bytes →
      ChannelPacket_parse bytes = .ok ⟨chand, none, cmode, tone, none⟩)
    ∧ (∀ (spd : Option SpeechPCMVal) (cmode : Option Nat)
      (tone : Option (Nat × Nat)) (bytes : List Nat),
      SpeechPCMPacket_build ⟨spd, cmode, tone⟩ = some bytes →
      SpeechPCMPacket_parse bytes = .ok ⟨spd, cmode, tone⟩) :=
  ⟨ChannelPacket_roundtrip, SpeechPCMPacket_roundtrip⟩

/-- Witness for `subfield_independence` at the subset `S = {mode}` of a
channel payload: only the `0x02` mode sub-field (word `0x4000`,
`TS_ENABLE`) is encoded, and decoding reports exactly that tag present. -/
theorem subfield_independence_witness :
    ChannelPacket_build ⟨none, none, some 0x4000, none, none⟩
        = some [0x40, 0x02, 0x40, 0x00]
    ∧ ChannelPacket_parse [0x40, 0x02, 0x40, 0x00]
        = .ok ⟨none, none, some 0x4000, none, none⟩ :=
  ⟨rfl, subfield_independence.1 none (some 0x4000) none _ rfl⟩

/-- Claim C5: for every bit-packed array with `N` logical bits,
`0 ≤ N ≤ 192`, encoding it as a channel-data sub-field (tag `0x01`, a
`NUM_BITS` byte equal to `N`, then exactly `ceil(N / 8)` data bytes) and
then decoding that encoding preserves `N` and the data bytes, hence the
bit pattern in the non-padding bits. -/
theorem chand_bitarray_roundtrip (N : Nat) (D : List Nat) (hN : N ≤ 192)
    (hD : D.length = (N + 7) / 8) (hb : ∀ b ∈ D, b < 256) :
    ∃ bs, ChanD_build ⟨N, D⟩ = some bs ∧ ChanD_parse bs = some (⟨N, D⟩, []) := by
  have hbuild : ChanD_build ⟨N, D⟩ = some (0x01 :: N :: D) :=
    if_pos ⟨show N < 256 by omega, hD, hb⟩
  refine ⟨_, hbuild, ?_⟩
  have hp := ChanD_parse_build hbuild []
  simpa using hp

/-- Witness for `chand_bitarray_roundtrip`: a 12-bit array stored as two
bytes survives the encode/decode round trip. -/
theorem chand_bitarray_roundtrip_witness :
    ∃ bs, ChanD_build ⟨12, [0xAB, 0xCD]⟩ = some bs ∧
      ChanD_parse bs = some (⟨12, [0xAB, 0xCD]⟩, []) :=
  chand_bitarray_roundtrip 12 [0xAB, 0xCD] (by decide) (by decide) (by decide)

/-- The `ControlPacketFields` table (ambeserver.py lines 44-75, "Table 31"),
in source order. -/
def ControlPacketFields : List (String × Nat) :=
  [("PKT_CHANNEL0", 0x40),
   ("PKT_ECMODE", 0x05),
   ("PKT_DCMODE", 0x06),
   ("PKT_COMPAND", 0x32),
   ("PKT_RATET", 0x09),
   ("PKT_RATEP", 0x0A),
   ("PKT_INIT", 0x0B),
   ("PKT_LOWPOWER", 0x10),
   ("PKT_CODECCFG", 0x38),
   ("PKT_CODECSTART", 0x2A),
   ("PKT_CODECSTOP", 0x2B),
   ("PKT_CHANFMT", 0x15),
   ("PKT_SPCHFMT", 0x16),
   ("PKT_PRODID", 0x30),
   ("PKT_VERSTRING", 0x31),
   ("PKT_READY", 0x39),
   ("PKT_HALT", 0x36),
   ("PKT_RESET", 0x33),
   ("PKT_RESETSOFTCFG", 0x34),
   ("PKT_GETCFG", 0x36),
   ("PKT_READCFG", 0x37),
   ("PKT_PARITYMODE", 0x3F),
   ("PKT_WRITE_I2C", 0x44),
   ("PKT_CLFCODECRESET", 0x46),
   ("PKT_SETCODECRESET", 0x47),
   ("PKT_DISCARDCODEC", 0x48),
   ("PKT_DELAYNUS", 0x49),
   ("PKT_DELAYNNS", 0x4A),
   ("PKT_RTSTHRESH", 0x4E),
   ("PKT_GAIN", 0x4B)]

/-- Claim C9: any two distinct control-field identifiers in the command
catalog map to distinct one-byte values, with the single exception of
`PKT_HALT` and `PKT_GETCFG`, which both map to `0x36` — so a decoded
control-field byte `0x36` cannot determine which of the two was sent. -/
theorem control_field_values_injective_except_halt_getcfg :
    (∀ p ∈ ControlPacketFields, ∀ q ∈ ControlPacketFields, p.1 ≠ q.1 →
      (p.2 = q.2 ↔ (p.1 = "PKT_HALT" ∧ q.1 = "PKT_GETCFG")
        ∨ (p.1 = "PKT_GETCFG" ∧ q.1 = "PKT_HALT")))
    ∧ ("PKT_HALT", 0x36) ∈ ControlPacketFields
    ∧ ("PKT_GETCFG", 0x36) ∈ ControlPacketFields := by
  decide

/-- Witness for `control_field_values_injective_except_halt_getcfg`: at the
concrete pair `PKT_INIT` (`0x0B`) and `PKT_RATET` (`0x09`) the two values
differ. -/
theorem control_field_values_witness : ¬ (0x0B : Nat) = 0x09 := by
  have h := control_field_values_injective_except_halt_getcfg.1
    ("PKT_INIT", 0x0B) (by decide) ("PKT_RATET", 0x09) (by decide) (by decide)
  intro hv
  rcases h.mp hv with ⟨h1, -⟩ | ⟨h1, -⟩ <;> exact absurd h1 (by decide)

/-- The 16-bit format word computed by `AmbeServer.set_chanfmt`
(ambeserver.py lines 613-632): the `ecmode` argument contributes `0x01`
for `"always"` or `0x02` for `"onchange"`, and the `samples` argument
contributes `0x10` for `"always"`, `0x20` for `"ondifference"` or `0x30`
for `"not160"`. -/
def set_chanfmt_word (ecmode samples : String) : Nat :=
  let chanfmt : Nat := 0x0
  let chanfmt := if ecmode = "always" then chanfmt ||| 0x01
    else if ecmode = "onchange" then chanfmt ||| 0x02
    else chanfmt
  let chanfmt := if samples = "always" then chanfmt ||| 0x10
    else if samples = "ondifference" then chanfmt ||| 0x20
    else if samples = "not160" then chanfmt ||| 0x30
    else chanfmt
  chanfmt

/-- The 16-bit format word computed by `AmbeServer.set_spchfmt`
(ambeserver.py lines 647-666): identical to `set_chanfmt_word` except
that `samples = "not160"` contributes `0x3` instead of `0x30`. -/
def set_spchfmt_word (dcmode samples : String) : Nat :=
  let spchfmt : Nat := 0x0
  let spchfmt := if dcmode = "always" then spchfmt ||| 0x01
    else if dcmode = "onchange" then spchfmt ||| 0x02
    else spchfmt
  let spchfmt := if samples = "always" then spchfmt ||| 0x10
    else if samples = "ondifference" then spchfmt ||| 0x20
    else if samples = "not160" then spchfmt ||| 0x3
    else spchfmt
  spchfmt

/-- Claim C10: for every mode argument, `set_chanfmt` and `set_spchfmt`
compute the same format word for `samples = "always"` (`0x10`) and
`samples = "ondifference"` (`0x20`), but differ for `samples = "not160"`:
`set_chanfmt` ORs in the bits `0x30` while `set_spchfmt` ORs in `0x03`
(so the two format words always disagree there). -/
theorem chanfmt_spchfmt_sample_bits (m : String) :
    set_chanfmt_word m "always" = set_spchfmt_word m "always"
    ∧ set_chanfmt_word m "ondifference" = set_spchfmt_word m "ondifference"
    ∧ set_chanfmt_word m "not160" = set_chanfmt_word m "" ||| 0x30
    ∧ set_spchfmt_word m "not160" = set_spchfmt_word m "" ||| 0x03
    ∧ set_chanfmt_word m "not160" ≠ set_spchfmt_word m "not160" := by
  by_cases h1 : m = "always"
  · subst h1
    refine ⟨rfl, rfl, rfl, rfl, by decide⟩
  · by_cases h2 : m = "onchange"
    · subst h2
      refine ⟨rfl, rfl, rfl, rfl, by decide⟩
    · simp only [set_chanfmt_word, set_spchfmt_word, if_neg h1, if_neg h2]
      refine ⟨rfl, rfl, rfl, rfl, by decide⟩
